import Mathlib

/-!
Verification of the administrative script `assignment1_code_sample_1.py`.

The program is a four-step pipeline: read a line of user input, fetch a
document over HTTPS, insert one row into a MySQL table, and email the user
input to an administrator. We give a shallow embedding: each Python function
becomes a Lean function from an explicit environment (oracles for the
outcomes of the external world: network body, database success/failure,
mail-child exit status) to a trace of observable events plus an optional
propagated exception. The embedding follows the source line by line; in
particular it models the absence of try/finally in `save_to_db` (cleanup
statements are simply not reached when an earlier statement raises) and the
`with urlopen(...) as data: return data` idiom in `get_data` (the context
manager closes the response before the function returns).
-/

namespace Assignment1

/-- Bytes of an HTTP response body (`b""` is `[]`). -/
abbrev Bytes := List Nat

/-- A database configuration record: the JSON object loaded from
`db_config.json`, a mapping from field names to values. -/
abbrev Config := List (String × String)

/-- An HTTP response handle as returned by `urllib.request.urlopen`:
it records the requested URL, the body held by the handle, and whether
`close` has been called on it (after which the body can no longer be read). -/
structure Response where
  url : String
  body : Bytes
  closed : Bool
deriving Repr, DecidableEq

/-- A `Response` whose body is still readable: `HTTPResponse.read` only
succeeds on a handle that has not been closed. -/
def Response.readable (r : Response) : Bool := !r.closed

/-- A Python value that can be passed as a SQL statement parameter.
The program is dynamically typed: `save_to_db` is called with the object
returned by `get_data` (a response handle), but the claims also quantify
over textual inputs, so we embed both. -/
inductive Value where
  | text (s : String)
  | bytes (b : Bytes)
  | handle (r : Response)
deriving Repr, DecidableEq

/-- Exceptions the program can raise (all propagate: nothing is caught). -/
inductive PyError where
  /-- any `pymysql` error: connection, execution or commit failure. -/
  | databaseError
  /-- `subprocess.CalledProcessError` raised by `check=True` on a non-zero
  child exit status. -/
  | calledProcessError (returncode : Nat)
  /-- the `mail` executable (or the config file) was not found. -/
  | fileNotFoundError
  /-- `db_config.json` exists but is not valid JSON. -/
  | jsonDecodeError
deriving Repr, DecidableEq

/-- Observable events of a run, in program order. -/
inductive Event where
  /-- `input(prompt)` was called. -/
  | promptInput (prompt : String)
  /-- `urlopen` performed an HTTP GET on `url`. -/
  | httpGet (url : String)
  /-- `pymysql.connect(**cfg)` succeeded, opening a connection. -/
  | dbConnect (cfg : Config)
  /-- `pymysql.connect(**cfg)` was attempted and raised. -/
  | dbConnectFail (cfg : Config)
  /-- `connection.cursor()` created a cursor. -/
  | cursorOpen
  /-- `cursor.execute(query, params)` succeeded. -/
  | dbExecute (query : String) (params : List Value)
  /-- `cursor.execute(query, params)` was attempted and raised. -/
  | dbExecuteFail (query : String) (params : List Value)
  /-- `connection.commit()` succeeded. -/
  | dbCommit
  /-- `connection.commit()` was attempted and raised. -/
  | dbCommitFail
  /-- `cursor.close()` ran. -/
  | cursorClose
  /-- `connection.close()` ran. -/
  | connClose
  /-- `subprocess.run(cmd, input=stdinBody, ...)` spawned the child and
  waited for it to exit. -/
  | spawnMail (cmd : List String) (stdinBody : String)
  /-- spawning the child failed (executable absent from the search path). -/
  | spawnFail (cmd : List String)
deriving Repr, DecidableEq

/-- Oracle for the database: whether `pymysql.connect`, `cursor.execute`
and `connection.commit` succeed on this run. -/
structure DBEnv where
  connectOk : Bool
  executeOk : Bool
  commitOk : Bool
deriving Repr, DecidableEq

/-- Oracle for the mail subprocess: whether the executable can be spawned,
the exit status of the child, and what the child wrote to standard error. -/
structure MailEnv where
  spawnOk : Bool
  exitCode : Nat
  stderr : String
deriving Repr, DecidableEq

/-- The contents of `db_config.json` as found on disk at process start. -/
inductive ConfigFile where
  | missing
  | malformed
  | wellFormed (cfg : Config)
deriving Repr, DecidableEq

/-- Full environment of one run. -/
structure Env where
  configFile : ConfigFile
  userInput : String
  fetchBody : Bytes
  db : DBEnv
  mail : MailEnv
deriving Repr, DecidableEq

/-! ## The embedded program -/

/-- The module prologue:
`with open("db_config.json", "r") as data: db_config = json.load(data)`.
Runs before anything else; `open` raises if the file is missing and
`json.load` raises if it is malformed. -/
def load_config : ConfigFile → Except PyError Config
  | ConfigFile.missing => Except.error PyError.fileNotFoundError
  | ConfigFile.malformed => Except.error PyError.jsonDecodeError
  | ConfigFile.wellFormed cfg => Except.ok cfg

/-- `get_user_input`: prompts and returns the entered line verbatim. -/
def get_user_input (entered : String) : List Event × String :=
  ([Event.promptInput "Enter your name: "], entered)

/-- `send_email(to, subject, body)`:
`subprocess.run(["mail", "-s", subject, to], input=body, text=True, check=True)`.
Spawns the `mail` child with the body on its standard input, waits for it to
exit, and — because of `check=True` — raises `CalledProcessError` exactly
when the exit status is non-zero, whatever the child wrote to stderr. -/
def send_email (menv : MailEnv) (recipient subject body : String) :
    List Event × Option PyError :=
  let cmd := ["mail", "-s", subject, recipient]
  if menv.spawnOk then
    ([Event.spawnMail cmd body],
      if menv.exitCode = 0 then none
      else some (PyError.calledProcessError menv.exitCode))
  else
    ([Event.spawnFail cmd], some PyError.fileNotFoundError)

/-- The fixed URL of `get_data`. -/
def theURL : String := "https://insecure-api.com/get-data"

/-- `get_data()`:
`with urlopen(url=url, context=context) as data: return data`.
Performs one GET on the fixed URL; `fetchBody` is the body the remote
endpoint serves. Returning from inside the `with` block runs
`HTTPResponse.__exit__`, which closes the response, so the handle the
caller receives is already closed. -/
def get_data (fetchBody : Bytes) : List Event × Response :=
  let resp : Response := { url := theURL, body := fetchBody, closed := false }
  ([Event.httpGet theURL], { resp with closed := true })

/-- The query string built in `save_to_db`. The f-string has no interpolation
placeholder, so it is this constant
(`INSERT INTO mytable (column1, column2) VALUES (%s, \x27Another Value\x27)`). -/
def saveQuery : String :=
  "INSERT INTO mytable (column1, column2) VALUES (%s, \x27Another Value\x27)"

/-- `save_to_db(data)`, statement by statement:
`connection = pymysql.connect(**db_config)`, `cursor = connection.cursor()`,
`cursor.execute(query, (data,))`, `connection.commit()`, `cursor.close()`,
`connection.close()`. There is no try/finally: when a statement raises, the
following statements — including the two close calls — are not reached and
the exception propagates. -/
def save_to_db (cfg : Config) (env : DBEnv) (data : Value) :
    List Event × Option PyError :=
  if env.connectOk then
    if env.executeOk then
      if env.commitOk then
        ([Event.dbConnect cfg, Event.cursorOpen,
          Event.dbExecute saveQuery [data], Event.dbCommit,
          Event.cursorClose, Event.connClose], none)
      else
        ([Event.dbConnect cfg, Event.cursorOpen,
          Event.dbExecute saveQuery [data], Event.dbCommitFail],
          some PyError.databaseError)
    else
      ([Event.dbConnect cfg, Event.cursorOpen,
        Event.dbExecuteFail saveQuery [data]], some PyError.databaseError)
  else
    ([Event.dbConnectFail cfg], some PyError.databaseError)

/-- The `if __name__ == \x27__main__\x27:` block, run after the config has
been loaded: capture input, fetch, persist, notify, each step starting only
after the previous returned and any exception propagating immediately. -/
def main_body (cfg : Config) (env : Env) : List Event × Option PyError :=
  let (tr1, user_input) := get_user_input env.userInput
  let (tr2, data) := get_data env.fetchBody
  let (tr3, r3) := save_to_db cfg env.db (Value.handle data)
  match r3 with
  | some e => (tr1 ++ tr2 ++ tr3, some e)
  | none =>
      let (tr4, r4) := send_email env.mail "admin@example.com" "User Input" user_input
      (tr1 ++ tr2 ++ tr3 ++ tr4, r4)

/-- The whole process: load the configuration at module import, then run the
main block. If loading raises, nothing else runs. -/
def run_program (env : Env) : List Event × Option PyError :=
  match load_config env.configFile with
  | Except.error e => ([], some e)
  | Except.ok cfg => main_body cfg env

/-! ## Observations on traces -/

/-- Count the events satisfying `p`. -/
def countEv (p : Event → Bool) (tr : List Event) : Nat := (tr.filter p).length

/-- The (query, parameters) pairs of the statements handed to
`cursor.execute`, whether or not execution succeeded. -/
def executedQueries (tr : List Event) : List (String × List Value) :=
  tr.filterMap fun e =>
    match e with
    | Event.dbExecute q ps => some (q, ps)
    | Event.dbExecuteFail q ps => some (q, ps)
    | _ => none

/-- The (query, parameters) pairs of the statements that executed
successfully. -/
def executedInserts (tr : List Event) : List (String × List Value) :=
  tr.filterMap fun e =>
    match e with
    | Event.dbExecute q ps => some (q, ps)
    | _ => none

/-- Whether the transaction was committed on this run. -/
def committed (tr : List Event) : Bool :=
  tr.any fun e => match e with | Event.dbCommit => true | _ => false

/-- The rows durably persisted by the run: successfully executed inserts
take effect only once the transaction commits. -/
def persistedRows (tr : List Event) : List (String × List Value) :=
  if committed tr then executedInserts tr else []

/-- SQL meaning of the fixed insert statement of `save_to_db`: the single
bound parameter becomes column1 and the quoted literal in the query text
becomes column2. Defined only on that statement. -/
def rowOf : String × List Value → Option (Value × String)
  | (q, ps) =>
    if q = saveQuery then
      match ps with
      | [v] => some (v, "Another Value")
      | _ => none
    else none

/-- The configuration records passed to `pymysql.connect`, across all
connection attempts of the trace (successful or failed). -/
def connectConfigs (tr : List Event) : List Config :=
  tr.filterMap fun e =>
    match e with
    | Event.dbConnect c => some c
    | Event.dbConnectFail c => some c
    | _ => none

/-- The standard-input bodies handed to spawned mail children. -/
def mailBodies (tr : List Event) : List String :=
  tr.filterMap fun e =>
    match e with
    | Event.spawnMail _ b => some b
    | _ => none

/-- Whether an event touches the database (connection, cursor, statement,
commit or close). -/
def isDBEvent : Event → Bool
  | Event.dbConnect _ => true
  | Event.dbConnectFail _ => true
  | Event.cursorOpen => true
  | Event.dbExecute _ _ => true
  | Event.dbExecuteFail _ _ => true
  | Event.dbCommit => true
  | Event.dbCommitFail => true
  | Event.cursorClose => true
  | Event.connClose => true
  | _ => false

/-- Erase the user-controlled standard-input body from mail-spawn events,
keeping everything else of the trace. Two traces equal after scrubbing agree
on every observable except the email body. -/
def scrubMailBody : Event → Event
  | Event.spawnMail cmd _ => Event.spawnMail cmd ""
  | e => e

/-- Predicate selecting connection-open events. -/
def isConnect : Event → Bool
  | Event.dbConnect _ => true
  | _ => false

/-- Predicate selecting connection-close events. -/
def isConnClose : Event → Bool
  | Event.connClose => true
  | _ => false

/-- Predicate selecting cursor-close events. -/
def isCursorClose : Event → Bool
  | Event.cursorClose => true
  | _ => false

/-- Predicate selecting mail-child spawn events (successful or failed). -/
def isMailEvent : Event → Bool
  | Event.spawnMail _ _ => true
  | Event.spawnFail _ => true
  | _ => false

/-- Predicate selecting HTTP GET events. -/
def isFetch : Event → Bool
  | Event.httpGet _ => true
  | _ => false

/-! ## Claims -/

/-- C1, as stated, is false: `save_to_db` has no try/finally, so with a valid
configuration but a failing `cursor.execute` the connection is opened once
and never closed — the close calls are simply not reached. Concrete input:
empty config record, execute raises, data = empty text. -/
theorem C1_counterexample :
    countEv isConnect (save_to_db [] ⟨true, false, true⟩ (Value.text "")).1 = 1 ∧
    countEv isConnClose (save_to_db [] ⟨true, false, true⟩ (Value.text "")).1 = 0 ∧
    countEv isCursorClose (save_to_db [] ⟨true, false, true⟩ (Value.text "")).1 = 0 := by
  decide

/-- C1 (amended): `save_to_db` opens at most one connection per call — exactly
one whenever `pymysql.connect` succeeds — and closes the cursor and the
connection exactly once on the success path (execute and commit both
succeed); when statement execution or commit raises, the connection is
opened once but neither the cursor nor the connection is ever closed. -/
theorem C1_close_behavior (cfg : Config) (env : DBEnv) (data : Value) :
    countEv isConnect (save_to_db cfg env data).1 =
      (if env.connectOk then 1 else 0) ∧
    countEv isConnClose (save_to_db cfg env data).1 =
      (if env.connectOk && env.executeOk && env.commitOk then 1 else 0) ∧
    countEv isCursorClose (save_to_db cfg env data).1 =
      (if env.connectOk && env.executeOk && env.commitOk then 1 else 0) := by
  rcases env with ⟨c, e, k⟩
  cases c <;> cases e <;> cases k <;>
    simp [save_to_db, countEv, isConnect, isConnClose, isCursorClose]

/-- C2: for every value `v` (in particular every textual input, including the
empty string and strings of SQL metacharacters), the only statement
`save_to_db` ever hands to `cursor.execute` has the fixed constant query text
`saveQuery` — identical across all inputs — and `v` reaches the statement
only in the bound-parameter list. -/
theorem C2_fixed_query_text (cfg : Config) (env : DBEnv) (v : Value) :
    executedQueries (save_to_db cfg env v).1 =
      (if env.connectOk then [(saveQuery, [v])] else []) := by
  rcases env with ⟨c, e, k⟩
  cases c <;> cases e <;> cases k <;> simp [save_to_db, executedQueries]

/-- C3, as stated, is false: the handle `get_data` returns is closed (the
`with` block closes the response before the `return` completes), so the body
is not readable from it. Concrete run: the endpoint serves the empty body. -/
theorem C3_counterexample :
    (get_data []).2.closed = true ∧ Response.readable (get_data []).2 = false := by
  decide

/-- C3 (amended): `get_data` performs a single blocking HTTP GET to the fixed
hardcoded HTTPS URL and returns the response handle of that request — the
handle carries the response body — but the `with` block closes the handle
before returning, so the body is no longer readable from the returned
handle. -/
theorem C3_single_get_closed_handle (b : Bytes) :
    (get_data b).1 = [Event.httpGet theURL] ∧
    (get_data b).2.url = theURL ∧
    (get_data b).2.body = b ∧
    (get_data b).2.closed = true :=
  ⟨rfl, rfl, rfl, rfl⟩

/-- C4: on the success path (config loads, database succeeds, mail child
exits 0) the run produces exactly this trace: the input prompt first, then
the single fetch, then the persistence events, then the mail spawn — the
four steps strictly sequential, in order, none skipped or reordered. -/
theorem C4_sequential_order (cfg : Config) (ui : String) (b : Bytes) (s : String) :
    (run_program ⟨ConfigFile.wellFormed cfg, ui, b, ⟨true, true, true⟩, ⟨true, 0, s⟩⟩).1 =
      [Event.promptInput "Enter your name: ",
       Event.httpGet theURL,
       Event.dbConnect cfg, Event.cursorOpen,
       Event.dbExecute saveQuery [Value.handle ⟨theURL, b, true⟩],
       Event.dbCommit, Event.cursorClose, Event.connClose,
       Event.spawnMail ["mail", "-s", "User Input", "admin@example.com"] ui] := by
  simp [run_program, load_config, main_body, get_user_input, get_data, save_to_db,
    send_email]

/-- C5: when `pymysql.connect` fails (invalid connection parameters), the run
raises a database error, no insert is ever executed and no row is persisted,
and the mail child is never spawned — the exception propagates out of
`save_to_db` and terminates the run before notification. Holds for every
user input, fetch body, execute/commit oracle and mail environment. -/
theorem C5_connect_failure (cfg : Config) (ui : String) (b : Bytes) (e k : Bool)
    (m : MailEnv) :
    (run_program ⟨ConfigFile.wellFormed cfg, ui, b, ⟨false, e, k⟩, m⟩).2 =
      some PyError.databaseError ∧
    executedInserts
      (run_program ⟨ConfigFile.wellFormed cfg, ui, b, ⟨false, e, k⟩, m⟩).1 = [] ∧
    persistedRows
      (run_program ⟨ConfigFile.wellFormed cfg, ui, b, ⟨false, e, k⟩, m⟩).1 = [] ∧
    countEv isMailEvent
      (run_program ⟨ConfigFile.wellFormed cfg, ui, b, ⟨false, e, k⟩, m⟩).1 = 0 := by
  simp [run_program, load_config, main_body, get_user_input, get_data, save_to_db,
    executedInserts, persistedRows, committed, countEv, isMailEvent]

/-- C6: in the run with captured input `""` and fetched body `b""`, exactly
one row is persisted; its statement is the fixed insert whose single bound
parameter (column1) is the fetched payload — the handle carrying the empty
body — and whose column2 is the literal `Another Value` from the query text;
the run then spawns the mail child with body `""` and succeeds. -/
theorem C6_empty_scenario :
    (run_program ⟨ConfigFile.wellFormed [], "", [], ⟨true, true, true⟩, ⟨true, 0, ""⟩⟩).2
      = none ∧
    persistedRows
      (run_program
        ⟨ConfigFile.wellFormed [], "", [], ⟨true, true, true⟩, ⟨true, 0, ""⟩⟩).1 =
      [(saveQuery, [Value.handle ⟨theURL, [], true⟩])] ∧
    rowOf (saveQuery, [Value.handle ⟨theURL, [], true⟩]) =
      some (Value.handle ⟨theURL, [], true⟩, "Another Value") ∧
    (⟨theURL, [], true⟩ : Response).body = [] ∧
    mailBodies
      (run_program
        ⟨ConfigFile.wellFormed [], "", [], ⟨true, true, true⟩, ⟨true, 0, ""⟩⟩).1 =
      [""] := by
  decide

/-- C7: `send_email` is fully determined by the child's exit status and not
by what the child wrote to standard error (the whole result — trace and
outcome — is identical for any two stderr contents), and with `check=True`
it returns normally exactly when the status is 0 and raises
`CalledProcessError` carrying the status for every non-zero status. -/
theorem C7_exit_status (recipient subj body s1 s2 : String) (code : Nat) :
    send_email ⟨true, code, s1⟩ recipient subj body =
      send_email ⟨true, code, s2⟩ recipient subj body ∧
    (send_email ⟨true, code, s1⟩ recipient subj body).2 =
      (if code = 0 then none else some (PyError.calledProcessError code)) := by
  constructor <;> simp [send_email]

/-- C8: once persistence has committed, the database state is final. With the
database succeeding, the persisted rows are the same single committed row for
every mail outcome (spawn error, non-zero exit, success), the database events
of the trace do not depend on the mail outcome at all, and the notification
step itself (for any mail environment and arguments) emits no database event
— nothing after persistence modifies or compensates the database state. -/
theorem C8_no_compensation (cfg : Config) (ui : String) (b : Bytes)
    (m1 m2 : MailEnv) :
    (run_program ⟨ConfigFile.wellFormed cfg, ui, b, ⟨true, true, true⟩, m1⟩).1.filter
        isDBEvent =
      (run_program ⟨ConfigFile.wellFormed cfg, ui, b, ⟨true, true, true⟩, m2⟩).1.filter
        isDBEvent ∧
    persistedRows
      (run_program ⟨ConfigFile.wellFormed cfg, ui, b, ⟨true, true, true⟩, m1⟩).1 =
      [(saveQuery, [Value.handle ⟨theURL, b, true⟩])] ∧
    (∀ (menv : MailEnv) (r s bd : String),
      (send_email menv r s bd).1.filter isDBEvent = []) := by
  refine ⟨?_, ?_, ?_⟩
  · rcases m1 with ⟨sp1, c1, t1⟩
    rcases m2 with ⟨sp2, c2, t2⟩
    cases sp1 <;> cases sp2 <;>
      simp [run_program, load_config, main_body, get_user_input, get_data,
        save_to_db, send_email, isDBEvent]
  · rcases m1 with ⟨sp1, c1, t1⟩
    cases sp1 <;>
      simp [run_program, load_config, main_body, get_user_input, get_data,
        save_to_db, send_email, persistedRows, committed, executedInserts]
  · intro menv r s bd
    rcases menv with ⟨sp, c, t⟩
    cases sp <;> simp [send_email, isDBEvent]

/-- C9: with the configuration file missing or malformed the process fails
immediately with the corresponding error and an empty trace — none of the
four steps runs; and on a well-formed file the run makes exactly one
connection attempt, passing exactly the record parsed at start: the
configuration is loaded once and reaches persistence unmodified. -/
theorem C9_config_lifecycle (ui : String) (b : Bytes) (db : DBEnv) (m : MailEnv)
    (cfg : Config) :
    run_program ⟨ConfigFile.missing, ui, b, db, m⟩ =
      ([], some PyError.fileNotFoundError) ∧
    run_program ⟨ConfigFile.malformed, ui, b, db, m⟩ =
      ([], some PyError.jsonDecodeError) ∧
    connectConfigs
      (run_program ⟨ConfigFile.wellFormed cfg, ui, b, db, m⟩).1 = [cfg] := by
  refine ⟨rfl, rfl, ?_⟩
  rcases db with ⟨c, e, k⟩
  rcases m with ⟨sp, code, st⟩
  cases c <;> cases e <;> cases k <;> cases sp <;>
    simp [run_program, load_config, main_body, get_user_input, get_data,
      save_to_db, send_email, connectConfigs]

/-- C10: two runs differing only in the captured user input are identical
except for the standard-input body of the mail child: same outcome, same
trace after scrubbing mail bodies — hence same fetch request, same executed
query text and bound parameters, same persisted rows — and every mail body
equals the captured input, which is the only place the input flows. -/
theorem C10_input_noninterference (cf : ConfigFile) (b : Bytes) (db : DBEnv)
    (m : MailEnv) (ui1 ui2 : String) :
    (run_program ⟨cf, ui1, b, db, m⟩).1.map scrubMailBody =
      (run_program ⟨cf, ui2, b, db, m⟩).1.map scrubMailBody ∧
    (run_program ⟨cf, ui1, b, db, m⟩).2 = (run_program ⟨cf, ui2, b, db, m⟩).2 ∧
    executedQueries (run_program ⟨cf, ui1, b, db, m⟩).1 =
      executedQueries (run_program ⟨cf, ui2, b, db, m⟩).1 ∧
    persistedRows (run_program ⟨cf, ui1, b, db, m⟩).1 =
      persistedRows (run_program ⟨cf, ui2, b, db, m⟩).1 ∧
    (run_program ⟨cf, ui1, b, db, m⟩).1.filter isFetch =
      (run_program ⟨cf, ui2, b, db, m⟩).1.filter isFetch ∧
    (mailBodies (run_program ⟨cf, ui1, b, db, m⟩).1).all (fun s => s == ui1) = true := by
  rcases db with ⟨c, e, k⟩
  rcases m with ⟨sp, code, st⟩
  cases cf <;> cases c <;> cases e <;> cases k <;> cases sp <;>
    simp [run_program, load_config, main_body, get_user_input, get_data,
      save_to_db, send_email, scrubMailBody, executedQueries, persistedRows,
      committed, executedInserts, mailBodies, isFetch]

end Assignment1
